import Mathlib

/-!
Shallow embedding of the order/inventory workflow of the annuti repository
(restaurant management app): the POS page (frontend/src/pages/POS.tsx), the
mobile order screen (mobile/src/screens/OrderScreen.js), the menu management
page (frontend/src/pages/MenuManagement.tsx), the inventory page
(src/unnamed/part_004) and, where the repository ships only type declarations
and stubs, models taken from the written design (marked "Modelled from the
spec"). Money and stock quantities are JS numbers in the source; they are
embedded as rationals, item quantities as naturals.
-/

namespace Annuti

/-! Data model of POS.tsx (the Order, OrderItem and menu item shapes). -/

/-- Order.status union type of POS.tsx: new, preparing, ready, served, paid. -/
inductive OrderStatus
  | new
  | preparing
  | ready
  | served
  | paid
deriving DecidableEq

/-- Order.payment_status union type of POS.tsx: pending, partial, paid.
The source string "partial" is rendered here as partialPaid. -/
inductive PaymentStatus
  | pending
  | partialPaid
  | paid
deriving DecidableEq

/-- Order.order_type union type of POS.tsx: dine-in, takeout, delivery. -/
inductive OrderType
  | dineIn
  | takeout
  | delivery
deriving DecidableEq

/-- The Order interface of POS.tsx. -/
structure Order where
  id : String
  table_id : String
  status : OrderStatus
  customer_name : Option String
  customer_phone : Option String
  party_size : Option ℕ
  order_type : OrderType
  subtotal : ℚ
  tax : ℚ
  discount : ℚ
  total : ℚ
  payment_status : PaymentStatus
  created_at : String
  updated_at : String
  user_id : String
deriving DecidableEq

/-- The OrderItem interface of POS.tsx (item status is one of new, preparing,
ready, served; the OrderStatus type above covers those values). -/
structure OrderItem where
  id : String
  order_id : String
  menu_item_id : String
  menu_item_name : String
  quantity : ℕ
  unit_price : ℚ
  notes : String
  status : OrderStatus
deriving DecidableEq

/-- The menu item rows of the POS page sample data (id, name, price, category). -/
structure POSMenuItem where
  id : String
  name : String
  price : ℚ
  category : String
deriving DecidableEq

/-- Result record of calculateTotals in POS.tsx. -/
structure Totals where
  subtotal : ℚ
  tax : ℚ
  total : ℚ
deriving DecidableEq

/-- calculateTotals of POS.tsx: subtotal is the reduce-sum of
unit_price * quantity over the order items, tax is 15 percent of the
subtotal, and total is subtotal plus tax (the order discount is not read). -/
def calculateTotals (orderItems : List OrderItem) : Totals :=
  let subtotal := orderItems.foldl (fun sum item => sum + item.unit_price * (item.quantity : ℚ)) 0
  let tax := subtotal * ((15 : ℚ) / 100)
  let total := subtotal + tax
  { subtotal := subtotal, tax := tax, total := total }

/-! Mobile order screen (mobile/src/screens/OrderScreen.js). -/

/-- A menu item of the mobile order screen sample data. -/
structure MobileMenuItem where
  id : String
  name : String
  price : ℚ
  category : String
deriving DecidableEq

/-- An entry of the mobile order list: a menu item spread together with a
quantity field, the shape built by addToOrder in OrderScreen.js. -/
structure MobileOrderItem where
  id : String
  name : String
  price : ℚ
  category : String
  quantity : ℕ
deriving DecidableEq

/-- addToOrder of OrderScreen.js: when an entry with the same id already
exists, increment the quantity of every entry with that id; otherwise append
the item with quantity 1. -/
def addToOrder (orderItems : List MobileOrderItem) (item : MobileMenuItem) :
    List MobileOrderItem :=
  if orderItems.any (fun orderItem => orderItem.id = item.id) then
    orderItems.map (fun orderItem =>
      if orderItem.id = item.id then
        { orderItem with quantity := orderItem.quantity + 1 }
      else orderItem)
  else
    orderItems ++ [{ id := item.id, name := item.name, price := item.price,
                     category := item.category, quantity := 1 }]

/-- removeFromOrder of OrderScreen.js: when an entry with the given id exists
and its quantity is above 1, decrement the quantity of every entry with that
id; otherwise filter the id out of the list. -/
def removeFromOrder (orderItems : List MobileOrderItem) (itemId : String) :
    List MobileOrderItem :=
  match orderItems.find? (fun item => item.id = itemId) with
  | some existingItem =>
    if existingItem.quantity > 1 then
      orderItems.map (fun item =>
        if item.id = itemId then { item with quantity := item.quantity - 1 } else item)
    else
      orderItems.filter (fun item => item.id ≠ itemId)
  | none => orderItems.filter (fun item => item.id ≠ itemId)

/-- calculateTotal of OrderScreen.js: reduce-sum of price * quantity. -/
def calculateTotal (orderItems : List MobileOrderItem) : ℚ :=
  orderItems.foldl (fun total item => total + item.price * (item.quantity : ℚ)) 0

/-! Shared fold lemma: a left fold accumulating sums equals the sum of the
mapped list. -/

theorem foldl_add_map {α : Type} (f : α → ℚ) (l : List α) (a : ℚ) :
    l.foldl (fun s x => s + f x) a = a + (l.map f).sum := by
  induction l generalizing a with
  | nil => simp
  | cons x xs ih => simp [ih, add_assoc]

/-! Sample order items with unit price 100 and quantities 1 and 2, matching
the testable property of the spec for C1 and the discount counterexample. -/

def itemQty1 : OrderItem :=
  { id := "i1", order_id := "o1", menu_item_id := "m1", menu_item_name := "A",
    quantity := 1, unit_price := 100, notes := "", status := OrderStatus.new }

def itemQty2 : OrderItem :=
  { id := "i2", order_id := "o1", menu_item_id := "m2", menu_item_name := "B",
    quantity := 2, unit_price := 100, notes := "", status := OrderStatus.new }

/-- C1: the subtotal computed by calculateTotals is the sum over the items of
unit_price times quantity (and likewise the mobile calculateTotal is the sum
of price times quantity); two items of quantities 1 and 2 at unit price 100
yield subtotal 300. -/
theorem calculateTotals_subtotal_is_sum (orderItems : List OrderItem)
    (mobileItems : List MobileOrderItem) :
    (calculateTotals orderItems).subtotal
        = (orderItems.map (fun item => item.unit_price * (item.quantity : ℚ))).sum
      ∧ calculateTotal mobileItems
        = (mobileItems.map (fun item => item.price * (item.quantity : ℚ))).sum
      ∧ (calculateTotals [itemQty1, itemQty2]).subtotal = 300 := by
  refine ⟨?_, ?_, ?_⟩
  · have h := foldl_add_map (fun item : OrderItem => item.unit_price * (item.quantity : ℚ))
      orderItems 0
    simpa [calculateTotals] using h
  · have h := foldl_add_map (fun item : MobileOrderItem => item.price * (item.quantity : ℚ))
      mobileItems 0
    simpa [calculateTotal] using h
  · norm_num [calculateTotals, itemQty1, itemQty2]

/-! C2: the discount invariant. calculateTotals never reads the discount
recorded on the order, so total = subtotal + tax, not subtotal + tax minus
discount. -/

/-- An order row as the POS page would hold it, with a discount of 10
recorded; its arithmetic fields carry the calculateTotals output for one
item of quantity 1 at unit price 100. -/
def orderWithDiscount : Order :=
  { id := "o1", table_id := "1", status := OrderStatus.new,
    customer_name := none, customer_phone := none, party_size := none,
    order_type := OrderType.dineIn, subtotal := 100, tax := 15,
    discount := 10, total := 115, payment_status := PaymentStatus.pending,
    created_at := "", updated_at := "", user_id := "u1" }

/-- C2 counterexample: with one item of quantity 1 at unit price 100 and a
discount of 10 recorded on the order, the computed total (115) is not the
computed subtotal plus tax minus the discount (105). -/
theorem calculateTotals_discount_counterexample :
    ¬ ((calculateTotals [itemQty1]).total
        = (calculateTotals [itemQty1]).subtotal + (calculateTotals [itemQty1]).tax
          - orderWithDiscount.discount) := by
  norm_num [calculateTotals, itemQty1, orderWithDiscount]

/-- C2 amended: the total computed by calculateTotals equals the computed
subtotal plus the computed tax; the discount recorded on the order is
ignored, so the total equals subtotal plus tax minus discount exactly when
the discount is zero. -/
theorem calculateTotals_total_eq_subtotal_add_tax (orderItems : List OrderItem)
    (discount : ℚ) :
    (calculateTotals orderItems).total
        = (calculateTotals orderItems).subtotal + (calculateTotals orderItems).tax
      ∧ ((calculateTotals orderItems).total
            = (calculateTotals orderItems).subtotal + (calculateTotals orderItems).tax
              - discount
          ↔ discount = 0) := by
  have h1 : (calculateTotals orderItems).total
      = (calculateTotals orderItems).subtotal + (calculateTotals orderItems).tax := rfl
  refine ⟨h1, ?_⟩
  rw [h1, eq_comm, sub_eq_self]

/-! Inventory page (src/unnamed/part_004): the InventoryItem shape and the
Low Stock tab filter. -/

/-- The InventoryItem interface of the inventory page. -/
structure InventoryItem where
  id : String
  name : String
  category : String
  current_stock : ℚ
  unit : String
  unit_cost : ℚ
  min_stock : ℚ
  supplier : String
  category_type : String
deriving DecidableEq

/-- The Low Stock tab filter of the inventory page: keep the items whose
current_stock is at most min_stock. -/
def lowStock (inventoryItems : List InventoryItem) : List InventoryItem :=
  inventoryItems.filter (fun item => item.current_stock ≤ item.min_stock)

/-- A boundary ingredient: current stock exactly equal to the minimum stock. -/
def boundaryBeef : InventoryItem :=
  { id := "1", name := "Beef", category := "Raw Materials", current_stock := 5,
    unit := "kg", unit_cost := 620, min_stock := 5, supplier := "Fresh Meat Co.",
    category_type := "Meat" }

/-- C4: an ingredient is in the lowStock result exactly when it is in the
inventory and its current_stock is at most its min_stock; at the boundary,
an ingredient whose current stock equals its minimum stock is kept. -/
theorem lowStock_mem_iff (inventoryItems : List InventoryItem) (item : InventoryItem) :
    (item ∈ lowStock inventoryItems
        ↔ item ∈ inventoryItems ∧ item.current_stock ≤ item.min_stock)
      ∧ lowStock [boundaryBeef] = [boundaryBeef] := by
  constructor
  · simp [lowStock]
  · norm_num [lowStock, boundaryBeef]

/-! Menu management page (frontend/src/pages/MenuManagement.tsx): the menu
item rows and the Profit Margin column. -/

/-- The menu item shape used by the menu management table. -/
structure MenuItemRow where
  id : String
  name : String
  description : String
  category_id : String
  category_name : String
  price : ℚ
  cost : ℚ
  is_available : Bool
  prep_time : Option ℕ
deriving DecidableEq

/-- The Profit Margin cell of the menu items table: price minus cost (the
cost column is displayed as COGS). -/
def profitMargin (item : MenuItemRow) : ℚ :=
  item.price - item.cost

/-- A menu item with price 250 and cost 100, as in the testable property. -/
def burgerRow : MenuItemRow :=
  { id := "1", name := "Beef Burger", description := "", category_id := "c1",
    category_name := "Burgers", price := 250, cost := 100,
    is_available := true, prep_time := none }

/-- C5: the profit margin reported for every menu item is its price minus its
cost (the COGS column); an item with price 250 and cost 100 reads back a
margin of 150. -/
theorem profitMargin_eq_price_sub_cost (item : MenuItemRow) :
    profitMargin item = item.price - item.cost
      ∧ profitMargin burgerRow = 150 := by
  exact ⟨rfl, by norm_num [profitMargin, burgerRow]⟩

/-! handleAddItem of POS.tsx. The handler reads the add-item form, looks the
menu item up by id, and appends a new OrderItem; it never reads the current
order status. The generated id (Date.now().toString() in the source) and the
surrounding React state are passed explicitly. -/

/-- The newOrderItem form state of POS.tsx: menu_item_id, quantity, notes. -/
structure NewOrderItemForm where
  menu_item_id : String
  quantity : ℕ
  notes : String
deriving DecidableEq

/-- The OrderItem literal built inside handleAddItem: order_id falls back to
the string new when there is no current order or its id is the empty string
(the JS disjunction with the fallback treats an empty id as absent). -/
def newOrderItemOf (newId : String) (currentOrder : Option Order)
    (form : NewOrderItemForm) (menuItem : POSMenuItem) : OrderItem :=
  { id := newId,
    order_id := match currentOrder with
      | some o => if o.id = "" then "new" else o.id
      | none => "new",
    menu_item_id := form.menu_item_id,
    menu_item_name := menuItem.name,
    quantity := form.quantity,
    unit_price := menuItem.price,
    notes := form.notes,
    status := OrderStatus.new }

/-- handleAddItem of POS.tsx: return the items unchanged when the form names
no menu item or the id is not found; otherwise append the new OrderItem. -/
def handleAddItem (form : NewOrderItemForm) (menuItems : List POSMenuItem)
    (currentOrder : Option Order) (orderItems : List OrderItem) (newId : String) :
    List OrderItem :=
  if form.menu_item_id = "" then orderItems
  else
    match menuItems.find? (fun item => item.id = form.menu_item_id) with
    | none => orderItems
    | some menuItem => orderItems ++ [newOrderItemOf newId currentOrder form menuItem]

/-- The first sample menu item of POS.tsx. -/
def beefBurgerPOS : POSMenuItem :=
  { id := "1", name := "Beef Burger", price := 250, category := "Burgers" }

/-- The sample menu items of POS.tsx. -/
def posMenuItems : List POSMenuItem :=
  [ beefBurgerPOS,
    { id := "2", name := "Chicken Burger", price := 220, category := "Burgers" },
    { id := "3", name := "Coke 330ml", price := 40, category := "Drinks" },
    { id := "4", name := "Fanta 330ml", price := 40, category := "Drinks" },
    { id := "5", name := "French Fries", price := 80, category := "Sides" },
    { id := "6", name := "Onion Rings", price := 90, category := "Sides" } ]

/-- A form asking for one Beef Burger. -/
def burgerForm : NewOrderItemForm :=
  { menu_item_id := "1", quantity := 1, notes := "" }

/-- An order already in the terminal paid state. -/
def paidOrder : Order :=
  { id := "o1", table_id := "1", status := OrderStatus.paid,
    customer_name := none, customer_phone := none, party_size := none,
    order_type := OrderType.dineIn, subtotal := 100, tax := 15,
    discount := 0, total := 115, payment_status := PaymentStatus.paid,
    created_at := "", updated_at := "", user_id := "u1" }

/-- C7 counterexample: handleAddItem on an order whose status is the terminal
paid state does not fail: it appends the OrderItem to the empty item list. -/
theorem handleAddItem_terminal_counterexample :
    paidOrder.status = OrderStatus.paid
      ∧ handleAddItem burgerForm posMenuItems (some paidOrder) [] "1688"
          = [newOrderItemOf "1688" (some paidOrder) burgerForm beefBurgerPOS] := by
  exact ⟨rfl, rfl⟩

/-- C7 amended: handleAddItem never consults the order status: its result
depends on the current order only through its id, and whenever the form
names a menu item that is found, the OrderItem is appended whatever the
order status, terminal or not; no InvalidStateError exists in the source
(subtotal, tax and total are recomputed from the item list by
calculateTotals on render). -/
theorem handleAddItem_ignores_status (form : NewOrderItemForm)
    (menus : List POSMenuItem) (o o2 : Order) (orderItems : List OrderItem)
    (newId : String) (menuItem : POSMenuItem) :
    (o.id = o2.id →
        handleAddItem form menus (some o) orderItems newId
          = handleAddItem form menus (some o2) orderItems newId)
      ∧ (form.menu_item_id ≠ "" →
          menus.find? (fun item => item.id = form.menu_item_id) = some menuItem →
          handleAddItem form menus (some o) orderItems newId
            = orderItems ++ [newOrderItemOf newId (some o) form menuItem]) := by
  constructor
  · intro h
    by_cases he : form.menu_item_id = ""
    · simp [handleAddItem, he]
    · cases hf : menus.find? (fun item => item.id = form.menu_item_id) with
      | none => simp [handleAddItem, he, hf]
      | some menuItem2 => simp [handleAddItem, he, hf, newOrderItemOf, h]
  · intro h1 h2
    simp [handleAddItem, h1, h2]

/-- An open order in status new. -/
def newOrderA : Order :=
  { id := "o1", table_id := "1", status := OrderStatus.new,
    customer_name := none, customer_phone := none, party_size := none,
    order_type := OrderType.dineIn, subtotal := 0, tax := 0,
    discount := 0, total := 0, payment_status := PaymentStatus.pending,
    created_at := "", updated_at := "", user_id := "u1" }

/-- The same order in status served. -/
def servedTwin : Order :=
  { newOrderA with status := OrderStatus.served }

theorem handleAddItem_ignores_status_witness :
    handleAddItem burgerForm posMenuItems (some newOrderA) [] "42"
        = handleAddItem burgerForm posMenuItems (some servedTwin) [] "42"
      ∧ handleAddItem burgerForm posMenuItems (some newOrderA) [] "42"
        = [newOrderItemOf "42" (some newOrderA) burgerForm beefBurgerPOS] := by
  constructor
  · exact (handleAddItem_ignores_status burgerForm posMenuItems newOrderA servedTwin
      [] "42" beefBurgerPOS).1 rfl
  · exact (handleAddItem_ignores_status burgerForm posMenuItems newOrderA servedTwin
      [] "42" beefBurgerPOS).2 (by decide) rfl

/-! Payment. handlePayment of POS.tsx is a placeholder; the Payment Recorder
of the design is modelled from the spec. -/

/-- The Payment row of the design: order reference, amount, method. -/
structure Payment where
  order_id : String
  amount : ℚ
  method : String
deriving DecidableEq

/-- handlePayment of POS.tsx: a placeholder that logs to the console and
closes the payment dialog; the current order, and in particular its
payment_status, is left unchanged. Embedded over the dialog-open flag and
the current order, the two pieces of state in scope. -/
def handlePayment (currentOrder : Option Order) : Bool × Option Order :=
  (false, currentOrder)

/-- Modelled from the spec: the Payment Recorder recordPayment operation
(spec section 4.4) has no implementation under src — the repository ships no
backend and the POS handlePayment handler is a placeholder that only closes
the dialog. Per the spec words: recordPayment(order, amount, method) creates
a Payment row; if the sum of payments for the order is at least order.total,
it sets Order.payment_status to paid; partial payments set payment_status to
partial. -/
def recordPayment (order : Order) (payments : List Payment) (amount : ℚ)
    (method : String) : Order × List Payment :=
  let payments2 := payments ++ [{ order_id := order.id, amount := amount, method := method }]
  if order.total ≤ (payments2.map Payment.amount).sum then
    ({ order with payment_status := PaymentStatus.paid }, payments2)
  else
    ({ order with payment_status := PaymentStatus.partialPaid }, payments2)

/-- C3: recordPayment sets payment_status to paid exactly when the sum of
the recorded payments for the order reaches order.total; in particular a
first payment equal to order.total yields paid, and a first payment strictly
below order.total yields partial. -/
theorem recordPayment_payment_status (order : Order) (payments : List Payment)
    (amount : ℚ) (method : String) :
    ((recordPayment order payments amount method).1.payment_status = PaymentStatus.paid
        ↔ order.total ≤ (((recordPayment order payments amount method).2).map Payment.amount).sum)
      ∧ (payments = [] → amount = order.total →
          (recordPayment order payments amount method).1.payment_status = PaymentStatus.paid)
      ∧ (payments = [] → amount < order.total →
          (recordPayment order payments amount method).1.payment_status
            = PaymentStatus.partialPaid) := by
  refine ⟨?_, ?_, ?_⟩
  · simp only [recordPayment]
    split
    next h =>
      simp at h
      simp [h]
    next h =>
      simp at h
      simp [h.not_le]
  · intro h0 h1
    subst h0
    subst h1
    simp [recordPayment]
  · intro h0 h1
    subst h0
    simp [recordPayment, not_le.mpr h1]

/-- An order with total 100 awaiting payment. -/
def payOrder100 : Order :=
  { id := "o2", table_id := "2", status := OrderStatus.served,
    customer_name := none, customer_phone := none, party_size := none,
    order_type := OrderType.dineIn, subtotal := 100, tax := 0,
    discount := 0, total := 100, payment_status := PaymentStatus.pending,
    created_at := "", updated_at := "", user_id := "u1" }

theorem recordPayment_payment_status_witness :
    (recordPayment payOrder100 [] 100 "cash").1.payment_status = PaymentStatus.paid
      ∧ (recordPayment payOrder100 [] 40 "cash").1.payment_status
        = PaymentStatus.partialPaid := by
  constructor
  · exact (recordPayment_payment_status payOrder100 [] 100 "cash").2.1 rfl rfl
  · exact (recordPayment_payment_status payOrder100 [] 40 "cash").2.2 rfl
      (by norm_num [payOrder100])

/-! Order status transitions. The source has no setStatus operation: the
status enum is a plain field (POS.tsx Order; the mobile TableScreen
getStatusColor only maps statuses to colors). The spec states the intended
transition table and also states that the source does not enforce it. -/

/-- The order status universe of the design, the POS statuses plus the
cancelled terminal state named by the spec transition table. -/
inductive FullOrderStatus
  | new
  | preparing
  | ready
  | served
  | paid
  | cancelled
deriving DecidableEq

/-- The allowed-transition table as the spec words state it: new to
preparing to ready to served to paid, and any earlier (non-terminal) state
to cancelled. Written from the spec sentence, to compare the implementation
against it. -/
def allowedTransition : FullOrderStatus → FullOrderStatus → Bool
  | FullOrderStatus.new, FullOrderStatus.preparing => true
  | FullOrderStatus.preparing, FullOrderStatus.ready => true
  | FullOrderStatus.ready, FullOrderStatus.served => true
  | FullOrderStatus.served, FullOrderStatus.paid => true
  | FullOrderStatus.new, FullOrderStatus.cancelled => true
  | FullOrderStatus.preparing, FullOrderStatus.cancelled => true
  | FullOrderStatus.ready, FullOrderStatus.cancelled => true
  | FullOrderStatus.served, FullOrderStatus.cancelled => true
  | _, _ => false

/-- An order as the status-update path sees it: id and status. -/
structure FSMOrder where
  id : String
  status : FullOrderStatus
deriving DecidableEq

/-- Modelled from the spec: no setStatus validation exists in the source —
the spec states the transition table is not enforced (section 4.1) and
describes the status as an enum string field mutated ad hoc (section 9).
setStatus therefore writes the requested status unconditionally and never
fails. -/
def setStatus (order : FSMOrder) (newStatus : FullOrderStatus) : FSMOrder :=
  { order with status := newStatus }

/-- An order currently in status new. -/
def newFSMOrder : FSMOrder :=
  { id := "o1", status := FullOrderStatus.new }

/-- C6 counterexample: the move from new to paid is not in the allowed
transition table, yet setStatus performs it: it succeeds and changes the
status, instead of failing with InvalidTransitionError and leaving the
status unchanged. -/
theorem setStatus_no_validation_counterexample :
    allowedTransition FullOrderStatus.new FullOrderStatus.paid = false
      ∧ (setStatus newFSMOrder FullOrderStatus.paid).status = FullOrderStatus.paid
      ∧ (setStatus newFSMOrder FullOrderStatus.paid).status ≠ newFSMOrder.status := by
  decide

/-- C6 amended: the source performs no transition validation: setStatus sets
any requested status from any current status and always succeeds (the
allowed-transition table is design intent only, and no InvalidTransitionError
exists in the source). -/
theorem setStatus_unvalidated (order : FSMOrder) (newStatus : FullOrderStatus) :
    (setStatus order newStatus).status = newStatus
      ∧ (setStatus order newStatus).id = order.id := by
  exact ⟨rfl, rfl⟩

/-! Inventory counts. The InventoryCountItem shape is declared in
frontend/src/types/user.ts; the recordCount operation is modelled from the
spec (the Reports variance tab renders static rows only). -/

/-- The InventoryCountItem shape of frontend/src/types/user.ts, without the
derived variance field (the variance is what recordCount stores). -/
structure InventoryCountItem where
  id : String
  count_id : String
  ingredient_id : String
  counted_quantity : ℚ
  system_quantity : ℚ
deriving DecidableEq

/-- A stored count row: the item, its variance, and the tolerance flag. -/
structure CountedItem where
  item : InventoryCountItem
  variance : ℚ
  flagged : Bool
deriving DecidableEq

/-- Modelled from the spec: recordCount (spec section 4.2) has no
implementation under src — the Reports page variance tab renders static
rows and InventoryCountItem exists only as a type declaration. Per the
spec words: recordCount compares counted against system quantity, stores
variance = counted minus system, and flags items where the absolute
variance exceeds a tolerance. -/
def recordCount (tolerance : ℚ) (countItems : List InventoryCountItem) :
    List CountedItem :=
  countItems.map (fun ci =>
    { item := ci,
      variance := ci.counted_quantity - ci.system_quantity,
      flagged := decide (|ci.counted_quantity - ci.system_quantity| > tolerance) })

/-- C8: every stored count row carries variance equal to counted_quantity
minus system_quantity, computed exactly (negative when the count is below
the system quantity), and is flagged exactly when the absolute variance
exceeds the tolerance. -/
theorem recordCount_variance (tolerance : ℚ) (countItems : List InventoryCountItem)
    (r : CountedItem) (hr : r ∈ recordCount tolerance countItems) :
    r.variance = r.item.counted_quantity - r.item.system_quantity
      ∧ (r.flagged = true ↔ |r.variance| > tolerance) := by
  rw [recordCount, List.mem_map] at hr
  obtain ⟨ci, _, rfl⟩ := hr
  exact ⟨rfl, by simp⟩

/-- The Beef row of the static variance report: counted 14.1 against a
system quantity of 15.2. -/
def beefCount : InventoryCountItem :=
  { id := "ci1", count_id := "IC1", ingredient_id := "1",
    counted_quantity := 141 / 10, system_quantity := 152 / 10 }

/-- The stored row recordCount produces for beefCount at tolerance 1:
variance minus 1.1, flagged. -/
def beefCounted : CountedItem :=
  { item := beefCount, variance := -(11 / 10), flagged := true }

theorem recordCount_variance_witness :
    beefCounted.variance = beefCounted.item.counted_quantity - beefCounted.item.system_quantity
      ∧ (beefCounted.flagged = true ↔ |beefCounted.variance| > 1) := by
  have hv : beefCount.counted_quantity - beefCount.system_quantity = -(11 / 10 : ℚ) := by
    norm_num [beefCount]
  have habs : |beefCount.counted_quantity - beefCount.system_quantity| > (1 : ℚ) := by
    rw [hv, abs_neg, abs_of_pos (by norm_num : (0 : ℚ) < 11 / 10)]
    norm_num
  have h2 : ({ item := beefCount,
               variance := beefCount.counted_quantity - beefCount.system_quantity,
               flagged := decide (|beefCount.counted_quantity - beefCount.system_quantity| > (1 : ℚ)) } : CountedItem)
      = beefCounted := by
    simp only [beefCounted, CountedItem.mk.injEq]
    exact ⟨trivial, hv, decide_eq_true habs⟩
  have hmem : beefCounted ∈ recordCount 1 [beefCount] := by
    rw [recordCount]
    simp only [List.map_cons, List.map_nil, List.mem_singleton]
    exact h2.symm
  exact recordCount_variance 1 [beefCount] beefCounted hmem

/-! Inventory transactions. The InventoryTransaction shape is declared in
the inventory page (src/unnamed/part_004); the recordTransaction operation
is modelled from the spec (the Transactions tab renders static rows and the
page handleSubmit only logs the form). -/

/-- The transaction type enum of the inventory page: receiving, issuing,
adjustment. -/
inductive TransactionType
  | receiving
  | issuing
  | adjustment
deriving DecidableEq

/-- A transaction line: ingredient reference, quantity, unit cost, per the
spec recordTransaction signature. -/
structure TransactionItem where
  ingredient_id : String
  quantity : ℚ
  unit_cost : ℚ
deriving DecidableEq

/-- An inventory transaction with its items. -/
structure InventoryTransaction where
  id : String
  type : TransactionType
  items : List TransactionItem
deriving DecidableEq

/-- The per-ingredient stock effect of one transaction line: receiving
increments current_stock by the quantity, issuing decrements it, adjustment
sets it; ingredients with a different id are untouched. -/
def applyTransactionItem (t : TransactionType) (txItem : TransactionItem)
    (ing : InventoryItem) : InventoryItem :=
  if ing.id = txItem.ingredient_id then
    match t with
    | TransactionType.receiving =>
        { ing with current_stock := ing.current_stock + txItem.quantity }
    | TransactionType.issuing =>
        { ing with current_stock := ing.current_stock - txItem.quantity }
    | TransactionType.adjustment =>
        { ing with current_stock := txItem.quantity }
  else ing

/-- Modelled from the spec: recordTransaction (spec section 4.2) has no
implementation under src — the inventory page Transactions tab renders
static rows and its handleSubmit only logs the item form. Per the spec
words: recordTransaction(type, items) creates an InventoryTransaction plus
its items and, for each item, mutates the referenced Ingredient
current_stock (receiving increments, issuing decrements, adjustment sets). -/
def recordTransaction (transactions : List InventoryTransaction)
    (ingredients : List InventoryItem) (txId : String) (t : TransactionType)
    (items : List TransactionItem) :
    List InventoryTransaction × List InventoryItem :=
  (transactions ++ [{ id := txId, type := t, items := items }],
   ingredients.map (fun ing =>
     items.foldl (fun acc txItem => applyTransactionItem t txItem acc) ing))

theorem foldl_applyTransactionItem_frame (t : TransactionType)
    (items : List TransactionItem) (ing : InventoryItem)
    (h : ∀ i ∈ items, ing.id ≠ i.ingredient_id) :
    items.foldl (fun acc txItem => applyTransactionItem t txItem acc) ing = ing := by
  induction items with
  | nil => rfl
  | cons x xs ih =>
    have hx : applyTransactionItem t x ing = ing := by
      simp [applyTransactionItem, h x (List.mem_cons_self x xs)]
    rw [List.foldl_cons, hx]
    exact ih (fun i hi => h i (List.mem_cons_of_mem x hi))

/-- C9: recordTransaction appends the InventoryTransaction with its items
to the ledger, and mutates the referenced ingredient stock per item type:
receiving increments current_stock by the quantity, issuing decrements it,
adjustment sets it; an ingredient referenced by no item of the transaction
is left unchanged (stock moves only through explicit transactions). -/
theorem recordTransaction_effects (transactions : List InventoryTransaction)
    (ingredients : List InventoryItem) (txId : String) (t : TransactionType)
    (items : List TransactionItem) (txItem : TransactionItem) (ing : InventoryItem) :
    ((recordTransaction transactions ingredients txId t items).1
        = transactions ++ [{ id := txId, type := t, items := items }])
      ∧ (ing.id = txItem.ingredient_id →
          ((recordTransaction transactions [ing] txId TransactionType.receiving [txItem]).2
              = [{ ing with current_stock := ing.current_stock + txItem.quantity }]
            ∧ (recordTransaction transactions [ing] txId TransactionType.issuing [txItem]).2
              = [{ ing with current_stock := ing.current_stock - txItem.quantity }]
            ∧ (recordTransaction transactions [ing] txId TransactionType.adjustment [txItem]).2
              = [{ ing with current_stock := txItem.quantity }]))
      ∧ ((∀ i ∈ items, ing.id ≠ i.ingredient_id) →
          (recordTransaction transactions [ing] txId t items).2 = [ing]) := by
  refine ⟨rfl, ?_, ?_⟩
  · intro h
    refine ⟨?_, ?_, ?_⟩ <;> simp [recordTransaction, applyTransactionItem, h]
  · intro h
    simp only [recordTransaction, List.map_cons, List.map_nil]
    rw [foldl_applyTransactionItem_frame t items ing h]

/-- The Beef row of the inventory page sample data. -/
def beefInv : InventoryItem :=
  { id := "1", name := "Beef", category := "Raw Materials",
    current_stock := 25 / 2, unit := "kg", unit_cost := 620, min_stock := 5,
    supplier := "Fresh Meat Co.", category_type := "Meat" }

/-- The Lettuce row of the inventory page sample data. -/
def lettuceInv : InventoryItem :=
  { id := "3", name := "Lettuce", category := "Raw Materials",
    current_stock := 76 / 5, unit := "kg", unit_cost := 80, min_stock := 3,
    supplier := "Fresh Vegetables Inc.", category_type := "Vegetables" }

/-- A receiving line of 2.5 kg of Beef at unit cost 620. -/
def beefTxItem : TransactionItem :=
  { ingredient_id := "1", quantity := 5 / 2, unit_cost := 620 }

theorem recordTransaction_effects_witness :
    (recordTransaction [] [beefInv] "TX9" TransactionType.receiving [beefTxItem]).2
        = [{ beefInv with current_stock := beefInv.current_stock + beefTxItem.quantity }]
      ∧ (recordTransaction [] [lettuceInv] "TX9" TransactionType.receiving [beefTxItem]).2
        = [lettuceInv] := by
  constructor
  · exact ((recordTransaction_effects [] [beefInv] "TX9" TransactionType.receiving
      [beefTxItem] beefTxItem beefInv).2.1 rfl).1
  · exact (recordTransaction_effects [] [lettuceInv] "TX9" TransactionType.receiving
      [beefTxItem] beefTxItem lettuceInv).2.2 (by decide)

/-! C10: the mobile order list invariant. Any interleaving of addToOrder
and removeFromOrder calls, starting from the empty order, keeps every
quantity at least 1 and every menu item id on at most one entry. -/

/-- One interaction with the mobile order screen: tapping a menu item
(addToOrder) or the minus button of an entry (removeFromOrder). -/
inductive MobileOp
  | add (item : MobileMenuItem)
  | remove (itemId : String)

/-- Run one interaction against the order list state. -/
def applyOp (orderItems : List MobileOrderItem) : MobileOp → List MobileOrderItem
  | MobileOp.add item => addToOrder orderItems item
  | MobileOp.remove itemId => removeFromOrder orderItems itemId

/-- Run a sequence of interactions from the initial empty order list. -/
def runOps (ops : List MobileOp) : List MobileOrderItem :=
  ops.foldl applyOp []

theorem map_id_map_of_preserve {f : MobileOrderItem → MobileOrderItem}
    (hf : ∀ a, (f a).id = a.id) (l : List MobileOrderItem) :
    (l.map f).map MobileOrderItem.id = l.map MobileOrderItem.id := by
  induction l with
  | nil => rfl
  | cons x xs ih => simp [hf x, ih]

theorem addToOrder_inv (orderItems : List MobileOrderItem) (item : MobileMenuItem)
    (h1 : ∀ e ∈ orderItems, 1 ≤ e.quantity)
    (h2 : (orderItems.map MobileOrderItem.id).Nodup) :
    (∀ e ∈ addToOrder orderItems item, 1 ≤ e.quantity)
      ∧ ((addToOrder orderItems item).map MobileOrderItem.id).Nodup := by
  unfold addToOrder
  by_cases hc : orderItems.any (fun orderItem => orderItem.id = item.id) = true
  · rw [if_pos hc]
    constructor
    · intro e he
      rw [List.mem_map] at he
      obtain ⟨a, ha, rfl⟩ := he
      by_cases hid : a.id = item.id
      · simp only [hid, if_pos rfl]
        exact Nat.le_add_left 1 a.quantity
      · simp only [if_neg hid]
        exact h1 a ha
    · rw [map_id_map_of_preserve (fun a => by by_cases hid : a.id = item.id <;> simp [hid])]
      exact h2
  · rw [if_neg hc]
    constructor
    · intro e he
      rw [List.mem_append] at he
      cases he with
      | inl h => exact h1 e h
      | inr h =>
        rw [List.mem_singleton] at h
        subst h
        exact Nat.le_refl 1
    · rw [List.map_append]
      have hni : item.id ∉ orderItems.map MobileOrderItem.id := by
        intro hmem
        rw [List.mem_map] at hmem
        obtain ⟨a, ha, haid⟩ := hmem
        rw [List.any_eq_true] at hc
        exact hc ⟨a, ha, by simp [haid]⟩
      rw [List.nodup_append]
      exact ⟨h2, List.nodup_singleton _, by simpa [List.disjoint_singleton] using hni⟩

theorem removeFromOrder_inv (orderItems : List MobileOrderItem) (itemId : String)
    (h1 : ∀ e ∈ orderItems, 1 ≤ e.quantity)
    (h2 : (orderItems.map MobileOrderItem.id).Nodup) :
    (∀ e ∈ removeFromOrder orderItems itemId, 1 ≤ e.quantity)
      ∧ ((removeFromOrder orderItems itemId).map MobileOrderItem.id).Nodup := by
  have hfilter :
      (∀ e ∈ orderItems.filter (fun item => item.id ≠ itemId), 1 ≤ e.quantity)
        ∧ ((orderItems.filter (fun item => item.id ≠ itemId)).map
            MobileOrderItem.id).Nodup := by
    constructor
    · intro e he
      exact h1 e (List.mem_of_mem_filter he)
    · exact List.Nodup.sublist (List.Sublist.map _ (List.filter_sublist orderItems)) h2
  unfold removeFromOrder
  cases hf : orderItems.find? (fun item => item.id = itemId) with
  | none => exact hfilter
  | some e0 =>
    dsimp only
    by_cases hq : e0.quantity > 1
    · rw [if_pos hq]
      have he0mem : e0 ∈ orderItems := List.mem_of_find?_eq_some hf
      have he0id : e0.id = itemId := by simpa using List.find?_some hf
      constructor
      · intro e he
        rw [List.mem_map] at he
        obtain ⟨a, ha, rfl⟩ := he
        by_cases hid : a.id = itemId
        · have haeq : a = e0 :=
            List.inj_on_of_nodup_map h2 ha he0mem (by rw [hid, he0id])
          have hq2 : 1 < a.quantity := by rw [haeq]; exact hq
          simp only [if_pos hid]
          show 1 ≤ a.quantity - 1
          omega
        · simp only [if_neg hid]
          exact h1 a ha
      · rw [map_id_map_of_preserve (fun a => by by_cases hid : a.id = itemId <;> simp [hid])]
        exact h2
    · rw [if_neg hq]
      exact hfilter

theorem foldl_applyOp_inv (ops : List MobileOp) (orderItems : List MobileOrderItem)
    (h1 : ∀ e ∈ orderItems, 1 ≤ e.quantity)
    (h2 : (orderItems.map MobileOrderItem.id).Nodup) :
    (∀ e ∈ ops.foldl applyOp orderItems, 1 ≤ e.quantity)
      ∧ ((ops.foldl applyOp orderItems).map MobileOrderItem.id).Nodup := by
  induction ops generalizing orderItems with
  | nil => exact ⟨h1, h2⟩
  | cons op ops ih =>
    rw [List.foldl_cons]
    obtain ⟨g1, g2⟩ :
        (∀ e ∈ applyOp orderItems op, 1 ≤ e.quantity)
          ∧ ((applyOp orderItems op).map MobileOrderItem.id).Nodup := by
      cases op with
      | add item => exact addToOrder_inv orderItems item h1 h2
      | remove itemId => exact removeFromOrder_inv orderItems itemId h1 h2
    exact ih _ g1 g2

/-- C10: starting from the empty order, after any sequence of addToOrder and
removeFromOrder calls every entry of the mobile order list has quantity at
least 1 and each menu item id appears on at most one entry (the id list has
no duplicates): adding a present item increments its entry instead of
duplicating a line, and removing decrements or deletes it. -/
theorem runOps_invariant (ops : List MobileOp) :
    (∀ e ∈ runOps ops, 1 ≤ e.quantity)
      ∧ ((runOps ops).map MobileOrderItem.id).Nodup := by
  exact foldl_applyOp_inv ops [] (by intro e he; cases he) (by simp)

/-- The Coke menu item of the mobile screen sample data. -/
def cokeMobileMenu : MobileMenuItem :=
  { id := "3", name := "Coke 330ml", price := 40, category := "Drinks" }

/-- The order entry created by the first tap on Coke. -/
def cokeEntry : MobileOrderItem :=
  { id := "3", name := "Coke 330ml", price := 40, category := "Drinks",
    quantity := 1 }

theorem runOps_invariant_witness : 1 ≤ cokeEntry.quantity := by
  have hmem : cokeEntry ∈ runOps [MobileOp.add cokeMobileMenu] := by
    show cokeEntry ∈ addToOrder [] cokeMobileMenu
    simp [addToOrder, cokeMobileMenu, cokeEntry]
  exact (runOps_invariant [MobileOp.add cokeMobileMenu]).1 cokeEntry hmem

end Annuti
